import Mathlib

/-!
Shallow embedding of the janggu core (src/janggu/data/genomic_indexer.py and
src/janggu/data/genomicarray.py).

Python integers are modelled as `Int`; Python floor division `//` is `Int.fdiv`
and Python `%` is `Int.fmod` (both floor-convention, matching Python for every
sign of the operands).  Python lists are Lean `List`s; fallible operations
return `Except String`.  The region records produced by the external BED/GFF
reader are modelled as plain records exposing chrom/start/end/strand, as the
spec's collaborator interface describes.
-/

/-- Record exposed by the external region reader and also the value returned by
`GenomicIndexer.__getitem__` (HTSeq's GenomicInterval).  The `end` attribute is
called `stop` because `end` is reserved in Lean. -/
structure GenomicInterval where
  chrom : String
  start : Int
  stop : Int
  strand : String
deriving DecidableEq

/-- Python list repetition `[x] * n` (an `Int` count; non-positive counts give
the empty list). -/
def pyReplicate (n : Int) (x : α) : List α :=
  List.replicate n.toNat x

/-- Python `range(n)` for an `Int` bound, as a list of `Int`. -/
def pyRange (n : Int) : List Int :=
  (List.range n.toNat).map Int.ofNat

/-- Loop-body value `val` of `GenomicIndexer.create_from_file`:
`reg.iv.end - reg.iv.start - binsize + stepsize` when `stepsize <= binsize`,
else `reg.iv.end - reg.iv.start`. -/
def regionVal (binsize stepsize : Int) (reg : GenomicInterval) : Int :=
  if stepsize ≤ binsize then reg.stop - reg.start - binsize + stepsize
  else reg.stop - reg.start

/-- Contribution of one region to the `chrs` column:
`[reg.iv.chrom] * reglen`, plus `[reg.iv.chrom]` for the trailing fragment when
`fixed_size_batches` is false and `val % stepsize > 0`. -/
def regionChrs (binsize stepsize : Int) (fixed_size_batches : Bool)
    (reg : GenomicInterval) : List String :=
  pyReplicate (Int.fdiv (regionVal binsize stepsize reg) stepsize) reg.chrom ++
    (if fixed_size_batches = false ∧ 0 < Int.fmod (regionVal binsize stepsize reg) stepsize
     then [reg.chrom] else [])

/-- Contribution of one region to the `offsets` column. -/
def regionOffsets (binsize stepsize : Int) (fixed_size_batches : Bool)
    (reg : GenomicInterval) : List Int :=
  pyReplicate (Int.fdiv (regionVal binsize stepsize reg) stepsize) reg.start ++
    (if fixed_size_batches = false ∧ 0 < Int.fmod (regionVal binsize stepsize reg) stepsize
     then [reg.start] else [])

/-- Contribution of one region to the `rel_end` column: `[binsize] * reglen`,
plus `[val - (val // stepsize) * stepsize]` for the trailing fragment. -/
def regionRelEnd (binsize stepsize : Int) (fixed_size_batches : Bool)
    (reg : GenomicInterval) : List Int :=
  pyReplicate (Int.fdiv (regionVal binsize stepsize reg) stepsize) binsize ++
    (if fixed_size_batches = false ∧ 0 < Int.fmod (regionVal binsize stepsize reg) stepsize
     then [regionVal binsize stepsize reg -
             Int.fdiv (regionVal binsize stepsize reg) stepsize * stepsize]
     else [])

/-- Contribution of one region to the `strand` column. -/
def regionStrand (binsize stepsize : Int) (fixed_size_batches : Bool)
    (reg : GenomicInterval) : List String :=
  pyReplicate (Int.fdiv (regionVal binsize stepsize reg) stepsize) reg.strand ++
    (if fixed_size_batches = false ∧ 0 < Int.fmod (regionVal binsize stepsize reg) stepsize
     then [reg.strand] else [])

/-- Contribution of one region to the `inregionidx` column: `range(reglen)`,
plus `[reglen]` for the trailing fragment. -/
def regionInregionidx (binsize stepsize : Int) (fixed_size_batches : Bool)
    (reg : GenomicInterval) : List Int :=
  pyRange (Int.fdiv (regionVal binsize stepsize reg) stepsize) ++
    (if fixed_size_batches = false ∧ 0 < Int.fmod (regionVal binsize stepsize reg) stepsize
     then [Int.fdiv (regionVal binsize stepsize reg) stepsize] else [])

/-- The GenomicIndexer object: binning policy plus the five parallel columns. -/
structure GenomicIndexer where
  binsize : Int
  stepsize : Int
  flank : Int
  chrs : List String
  offsets : List Int
  inregionidx : List Int
  strand : List String
  rel_end : List Int
deriving DecidableEq

/-- GenomicIndexer.create_from_file: validates the policy (property setters of
`__init__`: `binsize <= 0`, `stepsize <= 0` and `flank < 0` raise ValueError),
then accumulates the five columns over the region iterable. -/
def GenomicIndexer.create_from_file (regions : List GenomicInterval)
    (binsize stepsize flank : Int) (fixed_size_batches : Bool) :
    Except String GenomicIndexer :=
  if binsize ≤ 0 then Except.error "binsize must be positive"
  else if stepsize ≤ 0 then Except.error "stepsize must be positive"
  else if flank < 0 then Except.error "_flank must be a non-negative integer"
  else Except.ok
    { binsize := binsize, stepsize := stepsize, flank := flank,
      chrs := regions.flatMap (regionChrs binsize stepsize fixed_size_batches),
      offsets := regions.flatMap (regionOffsets binsize stepsize fixed_size_batches),
      inregionidx := regions.flatMap (regionInregionidx binsize stepsize fixed_size_batches),
      strand := regions.flatMap (regionStrand binsize stepsize fixed_size_batches),
      rel_end := regions.flatMap (regionRelEnd binsize stepsize fixed_size_batches) }

/-- GenomicIndexer.__len__: `len(self.chrs)`. -/
def GenomicIndexer.length (gind : GenomicIndexer) : Nat :=
  gind.chrs.length

/-- Python list subscription `xs[i]`: a negative index counts from the end;
out of range gives `none` (IndexError). -/
def pyListGet (xs : List α) (index : Int) : Option α :=
  let j := if index < 0 then index + xs.length else index
  if j < 0 then none else xs.get? j.toNat

/-- Argument of `GenomicIndexer.__getitem__`: the code accepts any `int` and
raises IndexError for every non-`int` index. -/
inductive PyIndex where
  | int (i : Int)
  | notInt
deriving DecidableEq

/-- GenomicIndexer.__getitem__: for an `int` index, reads the five columns at
that (Python-semantics) position and assembles the GenomicInterval
`(chrom, start - flank, end + flank, strand)` where
`start = offsets[i] + inregionidx[i] * stepsize` and
`end = start + (rel_end[i] if rel_end[i] > 0 else 1)`. -/
def GenomicIndexer.getitem (gind : GenomicIndexer) (index : PyIndex) :
    Except String GenomicInterval :=
  match index with
  | PyIndex.int i =>
    match pyListGet gind.offsets i, pyListGet gind.inregionidx i,
          pyListGet gind.rel_end i, pyListGet gind.chrs i, pyListGet gind.strand i with
    | some offset, some iridx, some val, some chrom, some strand =>
      Except.ok
        { chrom := chrom,
          start := offset + iridx * gind.stepsize - gind.flank,
          stop := offset + iridx * gind.stepsize + (if 0 < val then val else 1) + gind.flank,
          strand := strand }
    | _, _, _, _, _ => Except.error "list index out of range"
  | PyIndex.notInt => Except.error "Index support only for int."

/-- Indices whose `chrs` entry equals `c` (the `np.where(chrs == inc)` sets of
`idx_by_chrom`). -/
def whereChrom (gind : GenomicIndexer) (c : String) : Finset Nat :=
  (Finset.range gind.chrs.length).filter (fun i => gind.chrs.get? i = some c)

/-- GenomicIndexer.idx_by_chrom: start from all indices when `incl` is empty,
else from the union of the per-chromosome index sets; then subtract the index
set of every excluded chromosome. -/
def GenomicIndexer.idx_by_chrom (gind : GenomicIndexer)
    (incl excl : List String) : Finset Nat :=
  (excl.foldl (fun s exc => s \ whereChrom gind exc)
    (if incl = [] then Finset.range gind.length
     else incl.foldl (fun s inc => s ∪ whereChrom gind inc) ∅))

/-- Per-region bin count as the code realizes it: the (clamped) list-repeat
count `max(val // stepsize, 0)` plus one for the trailing fragment. -/
def codeBinCount (binsize stepsize : Int) (fixed_size_batches : Bool)
    (reg : GenomicInterval) : Nat :=
  (Int.fdiv (regionVal binsize stepsize reg) stepsize).toNat +
    (if fixed_size_batches = false ∧ 0 < Int.fmod (regionVal binsize stepsize reg) stepsize
     then 1 else 0)

/-- Per-region bin count exactly as the claim states it (an `Int`):
`n = (L - binsize + stepsize) div stepsize` when `stepsize <= binsize` and
`n = L div stepsize` otherwise, plus one when `fixed_size_batches` is false and
the division's remainder is non-zero. -/
def specBinCount (binsize stepsize : Int) (fixed_size_batches : Bool)
    (reg : GenomicInterval) : Int :=
  Int.fdiv (regionVal binsize stepsize reg) stepsize +
    (if fixed_size_batches = false ∧ Int.fmod (regionVal binsize stepsize reg) stepsize ≠ 0
     then 1 else 0)

lemma regionChrs_length (binsize stepsize : Int) (fixed_size_batches : Bool)
    (reg : GenomicInterval) :
    (regionChrs binsize stepsize fixed_size_batches reg).length =
      codeBinCount binsize stepsize fixed_size_batches reg := by
  unfold regionChrs codeBinCount pyReplicate
  split <;> simp

/-- C1 (amended): for positive binsize and stepsize the construction succeeds
and the total bin count equals the sum over regions of
`max(n, 0) + (1 if fixed_size_batches is false and the division's remainder is
non-zero else 0)`, where `n` is the claim's quotient
(`(L - binsize + stepsize) div stepsize` when `stepsize <= binsize`, else
`L div stepsize`); the clamp at 0 is forced because Python's list repetition
with a negative count produces an empty list while the claimed quotient `n` is
negative for regions shorter than `binsize - stepsize`. -/
theorem create_from_file_total_bin_count (regions : List GenomicInterval)
    (binsize stepsize flank : Int) (fixed_size_batches : Bool)
    (hb : 0 < binsize) (hs : 0 < stepsize) (hf : 0 ≤ flank) :
    ∃ gind, GenomicIndexer.create_from_file regions binsize stepsize flank
        fixed_size_batches = Except.ok gind ∧
      gind.length =
        (regions.map (codeBinCount binsize stepsize fixed_size_batches)).sum := by
  unfold GenomicIndexer.create_from_file
  rw [if_neg (not_le.mpr hb), if_neg (not_le.mpr hs), if_neg (not_lt.mpr hf)]
  refine ⟨_, rfl, ?_⟩
  show (regions.flatMap (regionChrs binsize stepsize fixed_size_batches)).length = _
  simp [List.length_flatMap, Function.comp_def, regionChrs_length]

/-- C1 witness: concrete instantiation of `create_from_file_total_bin_count`
at one region chr1:0-10 with binsize 5, stepsize 5. -/
theorem create_from_file_total_bin_count_witness :
    (0 : Int) < 5 ∧ (0 : Int) < 5 ∧ (0 : Int) ≤ 0 ∧
    ∃ gind, GenomicIndexer.create_from_file [⟨"chr1", 0, 10, "+"⟩] 5 5 0 true
        = Except.ok gind ∧
      gind.length = ([⟨"chr1", 0, 10, "+"⟩].map (codeBinCount 5 5 true)).sum :=
  ⟨by decide, by decide, by decide,
    create_from_file_total_bin_count [⟨"chr1", 0, 10, "+"⟩] 5 5 0 true
      (by decide) (by decide) (by decide)⟩

/-- C1 counterexample: for the single region chr1:0-1 with binsize 10 and
stepsize 2 (fixed_size_batches true) the built indexer has 0 bins, while the
claim's sum-of-`n` formula gives `(1 - 10 + 2) div 2 = -4`, so the stated
equality fails. -/
theorem create_from_file_total_bin_count_spec_cex :
    (GenomicIndexer.create_from_file [⟨"chr1", 0, 1, "+"⟩] 10 2 0 true).map
        GenomicIndexer.length = Except.ok 0 ∧
    ([(⟨"chr1", 0, 1, "+"⟩ : GenomicInterval)].map (specBinCount 10 2 true)).sum = -4 ∧
    ((0 : Int) ≠ -4) :=
  ⟨rfl, rfl, by decide⟩

/-- C2 (amended): per region, with `fixed_size_batches` true every column is
exactly the `n` full-size entries (`n = val div stepsize`, `val` being
`L - binsize + stepsize` when `stepsize <= binsize` and `L` otherwise) and no
trailing bin is ever appended; with `fixed_size_batches` false exactly one
trailing bin is appended if and only if `val mod stepsize > 0` (not
`L mod stepsize > 0` as claimed), and that bin has `rel_end`
`val - (val div stepsize) * stepsize` and `inregion_index = n`. -/
theorem region_trailing_bin_rule (binsize stepsize : Int) (reg : GenomicInterval) :
    (regionChrs binsize stepsize true reg =
        pyReplicate (Int.fdiv (regionVal binsize stepsize reg) stepsize) reg.chrom ∧
      regionOffsets binsize stepsize true reg =
        pyReplicate (Int.fdiv (regionVal binsize stepsize reg) stepsize) reg.start ∧
      regionRelEnd binsize stepsize true reg =
        pyReplicate (Int.fdiv (regionVal binsize stepsize reg) stepsize) binsize ∧
      regionStrand binsize stepsize true reg =
        pyReplicate (Int.fdiv (regionVal binsize stepsize reg) stepsize) reg.strand ∧
      regionInregionidx binsize stepsize true reg =
        pyRange (Int.fdiv (regionVal binsize stepsize reg) stepsize)) ∧
    (regionChrs binsize stepsize false reg =
        regionChrs binsize stepsize true reg ++
          (if 0 < Int.fmod (regionVal binsize stepsize reg) stepsize
           then [reg.chrom] else []) ∧
      regionOffsets binsize stepsize false reg =
        regionOffsets binsize stepsize true reg ++
          (if 0 < Int.fmod (regionVal binsize stepsize reg) stepsize
           then [reg.start] else []) ∧
      regionRelEnd binsize stepsize false reg =
        regionRelEnd binsize stepsize true reg ++
          (if 0 < Int.fmod (regionVal binsize stepsize reg) stepsize
           then [regionVal binsize stepsize reg -
                   Int.fdiv (regionVal binsize stepsize reg) stepsize * stepsize]
           else []) ∧
      regionStrand binsize stepsize false reg =
        regionStrand binsize stepsize true reg ++
          (if 0 < Int.fmod (regionVal binsize stepsize reg) stepsize
           then [reg.strand] else []) ∧
      regionInregionidx binsize stepsize false reg =
        regionInregionidx binsize stepsize true reg ++
          (if 0 < Int.fmod (regionVal binsize stepsize reg) stepsize
           then [Int.fdiv (regionVal binsize stepsize reg) stepsize] else [])) := by
  unfold regionChrs regionOffsets regionRelEnd regionStrand regionInregionidx
  refine ⟨⟨?_, ?_, ?_, ?_, ?_⟩, ?_, ?_, ?_, ?_, ?_⟩ <;> simp

/-- C2 counterexample: region chr1:0-7 (L = 7), binsize 3, stepsize 2,
fixed_size_batches false.  `L mod stepsize = 1 > 0`, so the claim demands one
trailing bin of length `7 - 3*2 = 1` with inregion_index 3; the code computes
`val = 7 - 3 + 2 = 6`, `val mod 2 = 0`, and appends nothing: the indexer has
exactly three full bins. -/
theorem region_trailing_bin_rule_spec_cex :
    (GenomicIndexer.create_from_file [⟨"chr1", 0, 7, "+"⟩] 3 2 0 false).map
        GenomicIndexer.rel_end = Except.ok [3, 3, 3] ∧
    (GenomicIndexer.create_from_file [⟨"chr1", 0, 7, "+"⟩] 3 2 0 false).map
        GenomicIndexer.inregionidx = Except.ok [0, 1, 2] ∧
    (GenomicIndexer.create_from_file [⟨"chr1", 0, 7, "+"⟩] 3 2 0 false).map
        GenomicIndexer.length = Except.ok 3 ∧
    0 < Int.fmod 7 2 :=
  ⟨rfl, rfl, rfl, by decide⟩

lemma pyListGet_eq_some_iff (xs : List α) (i : Int) :
    (∃ a, pyListGet xs i = some a) ↔ -(xs.length : Int) ≤ i ∧ i < xs.length := by
  unfold pyListGet
  by_cases hi : i < 0
  · simp only [if_pos hi]
    by_cases hj : i + (xs.length : Int) < 0
    · simp only [if_pos hj]
      constructor
      · rintro ⟨a, ha⟩; cases ha
      · intro h; omega
    · simp only [if_neg hj]
      have hlt : (i + (xs.length : Int)).toNat < xs.length := by omega
      constructor
      · intro _; omega
      · intro _
        exact ⟨_, List.get?_eq_get hlt⟩
  · have hi' : ¬ i < 0 := hi
    simp only [if_neg hi']
    constructor
    · rintro ⟨a, ha⟩
      have := (List.get?_eq_some.mp ha).1
      omega
    · rintro ⟨_, h2⟩
      have hlt : i.toNat < xs.length := by omega
      exact ⟨_, List.get?_eq_get hlt⟩

/-- C7 (amended): `__getitem__` raises for every non-int index, and for an int
index `i` it returns an interval if and only if `-length() <= i < length()`:
indices in `[0, length())` address the table directly and negative indices in
`[-length(), 0)` wrap Python-style to `length() + i` instead of raising. -/
theorem indexer_getitem_range (gind : GenomicIndexer) (i : Int)
    (h1 : gind.offsets.length = gind.chrs.length)
    (h2 : gind.inregionidx.length = gind.chrs.length)
    (h3 : gind.rel_end.length = gind.chrs.length)
    (h4 : gind.strand.length = gind.chrs.length) :
    (gind.getitem PyIndex.notInt = Except.error "Index support only for int.") ∧
    ((∃ iv, gind.getitem (PyIndex.int i) = Except.ok iv) ↔
      -(gind.length : Int) ≤ i ∧ i < (gind.length : Int)) := by
  refine ⟨rfl, ?_⟩
  simp only [GenomicIndexer.length]
  by_cases hc : -(gind.chrs.length : Int) ≤ i ∧ i < (gind.chrs.length : Int)
  · obtain ⟨o, ho⟩ := (pyListGet_eq_some_iff gind.offsets i).mpr (by rw [h1]; exact hc)
    obtain ⟨iri, hiri⟩ := (pyListGet_eq_some_iff gind.inregionidx i).mpr (by rw [h2]; exact hc)
    obtain ⟨rel, hrel⟩ := (pyListGet_eq_some_iff gind.rel_end i).mpr (by rw [h3]; exact hc)
    obtain ⟨ch, hch⟩ := (pyListGet_eq_some_iff gind.chrs i).mpr hc
    obtain ⟨st, hst⟩ := (pyListGet_eq_some_iff gind.strand i).mpr (by rw [h4]; exact hc)
    simp only [GenomicIndexer.getitem, ho, hiri, hrel, hch, hst]
    exact iff_of_true ⟨_, rfl⟩ hc
  · have hno : pyListGet gind.offsets i = none := by
      cases hcase : pyListGet gind.offsets i with
      | none => rfl
      | some a =>
        exact absurd ((pyListGet_eq_some_iff _ _).mp ⟨a, hcase⟩) (by rw [h1]; exact hc)
    have hni : pyListGet gind.inregionidx i = none := by
      cases hcase : pyListGet gind.inregionidx i with
      | none => rfl
      | some a =>
        exact absurd ((pyListGet_eq_some_iff _ _).mp ⟨a, hcase⟩) (by rw [h2]; exact hc)
    have hnr : pyListGet gind.rel_end i = none := by
      cases hcase : pyListGet gind.rel_end i with
      | none => rfl
      | some a =>
        exact absurd ((pyListGet_eq_some_iff _ _).mp ⟨a, hcase⟩) (by rw [h3]; exact hc)
    have hnc : pyListGet gind.chrs i = none := by
      cases hcase : pyListGet gind.chrs i with
      | none => rfl
      | some a => exact absurd ((pyListGet_eq_some_iff _ _).mp ⟨a, hcase⟩) hc
    have hns : pyListGet gind.strand i = none := by
      cases hcase : pyListGet gind.strand i with
      | none => rfl
      | some a =>
        exact absurd ((pyListGet_eq_some_iff _ _).mp ⟨a, hcase⟩) (by rw [h4]; exact hc)
    simp only [GenomicIndexer.getitem, hno, hni, hnr, hnc, hns]
    exact iff_of_false (by rintro ⟨iv, hiv⟩; cases hiv) hc

/-- Concrete two-bin indexer (the table built from chr1:0-10, binsize 5,
stepsize 5) used to instantiate the `__getitem__` theorems. -/
def twoBinIndexer : GenomicIndexer :=
  { binsize := 5, stepsize := 5, flank := 0,
    chrs := ["chr1", "chr1"], offsets := [0, 0], inregionidx := [0, 1],
    strand := ["+", "+"], rel_end := [5, 5] }

/-- C7 witness: `indexer_getitem_range` at the concrete two-bin indexer and
index 0. -/
theorem indexer_getitem_range_witness :
    (twoBinIndexer.offsets.length = twoBinIndexer.chrs.length) ∧
    (twoBinIndexer.inregionidx.length = twoBinIndexer.chrs.length) ∧
    (twoBinIndexer.rel_end.length = twoBinIndexer.chrs.length) ∧
    (twoBinIndexer.strand.length = twoBinIndexer.chrs.length) ∧
    ((twoBinIndexer.getitem PyIndex.notInt = Except.error "Index support only for int.") ∧
     ((∃ iv, twoBinIndexer.getitem (PyIndex.int 0) = Except.ok iv) ↔
       -(twoBinIndexer.length : Int) ≤ 0 ∧ (0 : Int) < (twoBinIndexer.length : Int))) :=
  ⟨rfl, rfl, rfl, rfl, indexer_getitem_range twoBinIndexer 0 rfl rfl rfl rfl⟩

/-- C7 counterexample: on the indexer built from chr1:0-10 with binsize 5 and
stepsize 5 (two bins), the call `__getitem__(-1)` does not raise: it returns
the last interval (chr1, 5, 10, +), because Python list indexing wraps
negative indices. -/
theorem indexer_getitem_negative_index_cex :
    (GenomicIndexer.create_from_file [⟨"chr1", 0, 10, "+"⟩] 5 5 0 true).map
        (fun gind => gind.getitem (PyIndex.int (-1)))
      = Except.ok (Except.ok ⟨"chr1", 5, 10, "+"⟩) := rfl

/-- C8: for every chromosome name, the include-set and the exclude-set of
`idx_by_chrom` partition the full index range: their union is every index and
their intersection is empty. -/
theorem idx_by_chrom_partition (gind : GenomicIndexer) (c : String) :
    gind.idx_by_chrom [c] [] ∪ gind.idx_by_chrom [] [c] = Finset.range gind.length ∧
    gind.idx_by_chrom [c] [] ∩ gind.idx_by_chrom [] [c] = ∅ := by
  have hincl : gind.idx_by_chrom [c] [] = whereChrom gind c := by
    simp [GenomicIndexer.idx_by_chrom]
  have hexcl : gind.idx_by_chrom [] [c] = Finset.range gind.length \ whereChrom gind c := by
    simp [GenomicIndexer.idx_by_chrom]
  have hsub : whereChrom gind c ⊆ Finset.range gind.length := by
    unfold whereChrom GenomicIndexer.length
    exact Finset.filter_subset _ _
  rw [hincl, hexcl]
  exact ⟨Finset.union_sdiff_of_subset hsub, Finset.inter_sdiff_self _ _⟩

/-!
GenomicArray (src/janggu/data/genomicarray.py).  The per-chromosome numpy /
h5py datasets are modelled as dense 3-axis arrays with explicit dimensions and
a total indexing function; `handle` is an association list from chromosome
name to array (a Python dict).  Numpy basic indexing is embedded exactly:
slice bounds are clamped (negative bounds count from the end), scalar indices
wrap once when negative and raise IndexError when out of bounds.
-/

/-- Dense 3-axis array (positions x strand x condition). -/
structure Array3 (α : Type) where
  dim0 : Nat
  dim1 : Nat
  dim2 : Nat
  data : Nat → Nat → Nat → α

/-- numpy.zeros for a 3-axis shape. -/
def Array3.zeros (α : Type) [Zero α] (d0 d1 d2 : Nat) : Array3 α :=
  { dim0 := d0, dim1 := d1, dim2 := d2, data := fun _ _ _ => 0 }

/-- Python/numpy slice bound normalization for an axis of length `n`:
a non-negative bound is clamped to `n`, a negative bound counts from the end
and is clamped to 0. -/
def sliceBound (n : Nat) (b : Int) : Nat :=
  if b < 0 then (b + n).toNat else min b.toNat n

/-- numpy scalar index on an axis of length `n`: negative indices wrap once;
anything still out of `[0, n)` raises IndexError (`none`). -/
def scalarIndex (n : Nat) (k : Int) : Option Nat :=
  let k' := if k < 0 then k + n else k
  if 0 ≤ k' ∧ k' < n then some k'.toNat else none

/-- numpy slice assignment `arr[s:e, j, k] = v` on normalized coordinates:
positions in `[s, e)` at strand `j` and condition `k` receive `v`. -/
def Array3.assignSlice (arr : Array3 α) (s e j k : Nat) (v : α) : Array3 α :=
  { dim0 := arr.dim0, dim1 := arr.dim1, dim2 := arr.dim2,
    data := fun p q r => if s ≤ p ∧ p < e ∧ q = j ∧ r = k then v else arr.data p q r }

/-- numpy axis-0 slice `arr[s:e]` on normalized bounds, keeping the strand and
condition axes whole. -/
def Array3.sliceAxis0 (arr : Array3 α) (s e : Nat) : Array3 α :=
  { dim0 := e - s, dim1 := arr.dim1, dim2 := arr.dim2,
    data := fun p q r => arr.data (s + p) q r }

/-- Python dict subscription (association-list lookup; `none` is KeyError). -/
def alookup (l : List (String × β)) (k : String) : Option β :=
  match l with
  | [] => none
  | (k', v) :: rest => if k' = k then some v else alookup rest k

/-- In-place mutation of the dict entry at key `k`. -/
def aupdate (l : List (String × β)) (k : String) (v : β) : List (String × β) :=
  l.map (fun kv => if kv.1 = k then (k, v) else kv)

/-- The GenomicArray object: metadata plus the chromosome-keyed backing dict. -/
structure GenomicArray (α : Type) where
  stranded : Bool
  condition : List String
  resolution : Int
  order : Int
  handle : List (String × Array3 α)

/-- Key passed to `GenomicArray.__setitem__`: the code demands
`index[0]` a GenomicInterval and `index[1]` an `int`, and raises IndexError
for every other key shape. -/
inductive SetItemKey where
  | mk (interval : GenomicInterval) (condition : Int)
  | notPair

/-- GenomicArray.__setitem__: translates the interval to cell coordinates with
`start // resolution` and `end // resolution`, picks strand axis 1 exactly
when stranded and the strand is '-', and assigns `value` into
`handle[chrom][start:end, strand_axis, condition]`. -/
def GenomicArray.setitem (garr : GenomicArray α) (key : SetItemKey) (value : α) :
    Except String (GenomicArray α) :=
  match key with
  | SetItemKey.mk interval condition =>
    match alookup garr.handle interval.chrom with
    | none => Except.error "KeyError"
    | some arr =>
      match scalarIndex arr.dim1
              (if garr.stranded = true ∧ interval.strand = "-" then 1 else 0),
            scalarIndex arr.dim2 condition with
      | some j, some k =>
        Except.ok { garr with
          handle := aupdate garr.handle interval.chrom
            (arr.assignSlice
              (sliceBound arr.dim0 (Int.fdiv interval.start garr.resolution))
              (sliceBound arr.dim0 (Int.fdiv interval.stop garr.resolution))
              j k value) }
      | _, _ => Except.error "IndexError"
  | SetItemKey.notPair =>
    Except.error "Index must be a GenomicInterval and a condition index"

/-- Key passed to `GenomicArray.__getitem__`: the code accepts only a bare
GenomicInterval; an (interval, condition) pair -- or anything else -- is not a
GenomicInterval and raises IndexError. -/
inductive GetItemKey where
  | interval (interval : GenomicInterval)
  | pair (interval : GenomicInterval) (condition : Int)
  | other

/-- GenomicArray.__getitem__: for a bare interval returns the sub-array
`handle[chrom][start // resolution : end // resolution]` (all strand and
condition axes); every other key raises IndexError. -/
def GenomicArray.getitem (garr : GenomicArray α) (key : GetItemKey) :
    Except String (Array3 α) :=
  match key with
  | GetItemKey.interval interval =>
    match alookup garr.handle interval.chrom with
    | none => Except.error "KeyError"
    | some arr =>
      Except.ok
        (arr.sliceAxis0
          (sliceBound arr.dim0 (Int.fdiv interval.start garr.resolution))
          (sliceBound arr.dim0 (Int.fdiv interval.stop garr.resolution)))
  | _ => Except.error "Index must be a GenomicInterval"

/-- GenomicArray.__init__ validation: conditions default to ['sample']; the
order setter raises for `order <= 0`, then `order < 1` and `order > 4` are
rejected, then the resolution setter raises for `resolution <= 0`.  Returns
the effective condition list. -/
def GenomicArray.initBase (conditions : Option (List String))
    (resolution order : Int) : Except String (List String) :=
  let conds := match conditions with
    | none => ["sample"]
    | some cs => cs
  if order ≤ 0 then Except.error "order must be greater than zero"
  else if order < 1 then Except.error "order must be a positive integer"
  else if 4 < order then Except.error "order support only up to order=4."
  else if resolution ≤ 0 then Except.error "resolution must be greater than zero"
  else Except.ok conds

/-- A persisted HDF5 file: the chromosome datasets plus the attrs written at
creation time (`conditions`, `order`, `resolution`). -/
structure H5File (α : Type) where
  datasets : List (String × Array3 α)
  conditions : List String
  order : Int
  resolution : Int

/-- Datasets created by `HDF5GenomicArray.__init__` for each chromosome:
shape `(chroms[chrom] + 1, 2 if stranded else 1, len(conditions))`, filled
with `numpy.zeros`. -/
def hdf5CreateDatasets (α : Type) [Zero α] (chroms : List (String × Nat))
    (stranded : Bool) (conds : List String) : List (String × Array3 α) :=
  chroms.map (fun ch =>
    (ch.1, Array3.zeros α (ch.2 + 1) (if stranded then 2 else 1) conds.length))

/-- HDF5GenomicArray.__init__.  The file system is abstracted to the content
of the single cache file at the tag-derived location (`fs`); the loader is the
caller's population callback acting on the store.  When the cache file is
missing or `overwrite` is set, the datasets are created zero-filled, the
metadata attrs are written, and the loader (if any) is invoked once; in every
successful run the file is then reopened read-only and `conditions`, `order`
and `resolution` are restored from its attrs.  Returns the file content at the
location after the call, the resulting store, and whether the loader ran. -/
def HDF5GenomicArray.init (α : Type) [Zero α] (fs : Option (H5File α))
    (chroms : List (String × Nat)) (stranded : Bool)
    (conditions : Option (List String)) (resolution order : Int)
    (cache overwrite : Bool)
    (loader : Option (GenomicArray α → GenomicArray α)) :
    Except String (H5File α × GenomicArray α × Bool) :=
  match GenomicArray.initBase conditions resolution order with
  | Except.error e => Except.error e
  | Except.ok conds =>
    if cache = false then Except.error "HDF5 format requires cache=True"
    else
      match fs, overwrite with
      | some f, false =>
        Except.ok (f,
          { stranded := stranded, condition := f.conditions,
            resolution := f.resolution, order := f.order, handle := f.datasets },
          false)
      | _, _ =>
        let st0 : GenomicArray α :=
          { stranded := stranded, condition := conds, resolution := resolution,
            order := order, handle := hdf5CreateDatasets α chroms stranded conds }
        let st1 := match loader with
          | some load => load st0
          | none => st0
        let file : H5File α :=
          { datasets := st1.handle, conditions := conds,
            order := order, resolution := resolution }
        Except.ok (file,
          { stranded := stranded, condition := file.conditions,
            resolution := file.resolution, order := file.order,
            handle := file.datasets },
          loader.isSome)

/-- A persisted npz archive: the chromosome arrays plus the three metadata
entries `conditions`, `order`, `resolution`. -/
structure NpzFile (α : Type) where
  arrays : List (String × Array3 α)
  conditions : List String
  order : Int
  resolution : Int

/-- Arrays created by `NPGenomicArray.__init__` for each chromosome: shape
`(chroms[chrom] + 1, 2 if stranded else 1, len(conditions))`, filled with
`numpy.zeros`. -/
def npCreateData (α : Type) [Zero α] (chroms : List (String × Nat))
    (stranded : Bool) (conds : List String) : List (String × Array3 α) :=
  chroms.map (fun ch =>
    (ch.1, Array3.zeros α (ch.2 + 1) (if stranded then 2 else 1) conds.length))

/-- NPGenomicArray.__init__, with the npz archive at the tag-derived location
abstracted as `fs`.  The rebuild condition is the code's
`cache and not exists or overwrite or not cache`; on rebuild the arrays are
created zero-filled, the loader (if any) runs once, and with caching the
archive (arrays plus metadata) is saved and immediately reloaded; without a
rebuild the archive is loaded and its metadata wins. -/
def NPGenomicArray.init (α : Type) [Zero α] (fs : Option (NpzFile α))
    (chroms : List (String × Nat)) (stranded : Bool)
    (conditions : Option (List String)) (resolution order : Int)
    (cache overwrite : Bool)
    (loader : Option (GenomicArray α → GenomicArray α)) :
    Except String (Option (NpzFile α) × GenomicArray α × Bool) :=
  match GenomicArray.initBase conditions resolution order with
  | Except.error e => Except.error e
  | Except.ok conds =>
    if (cache = true ∧ fs.isNone = true) ∨ overwrite = true ∨ cache = false then
      let st0 : GenomicArray α :=
        { stranded := stranded, condition := conds, resolution := resolution,
          order := order, handle := npCreateData α chroms stranded conds }
      let st1 := match loader with
        | some load => load st0
        | none => st0
      if cache = true then
        let saved : NpzFile α :=
          { arrays := st1.handle, conditions := conds,
            order := order, resolution := resolution }
        Except.ok (some saved,
          { stranded := stranded, condition := saved.conditions,
            resolution := saved.resolution, order := saved.order,
            handle := saved.arrays },
          loader.isSome)
      else
        Except.ok (fs,
          { stranded := stranded, condition := conds, resolution := resolution,
            order := order, handle := st1.handle },
          loader.isSome)
    else
      match fs with
      | some f =>
        Except.ok (some f,
          { stranded := stranded, condition := f.conditions,
            resolution := f.resolution, order := f.order, handle := f.arrays },
          false)
      | none => Except.error "FileNotFoundError"

/-- Result of the factory `create_genomic_array`: one of the two backends. -/
inductive CreatedArray (α : Type) where
  | hdf5 (file : H5File α) (store : GenomicArray α) (loaderInvoked : Bool)
  | ndarray (file : Option (NpzFile α)) (store : GenomicArray α) (loaderInvoked : Bool)

/-- create_genomic_array: dispatches on the storage tag, forwarding every
argument to the selected backend; any other tag raises. -/
def create_genomic_array (α : Type) [Zero α] (h5fs : Option (H5File α))
    (npfs : Option (NpzFile α)) (chroms : List (String × Nat)) (stranded : Bool)
    (conditions : Option (List String)) (storage : String)
    (resolution order : Int) (cache overwrite : Bool)
    (loader : Option (GenomicArray α → GenomicArray α)) :
    Except String (CreatedArray α) :=
  if storage = "hdf5" then
    (HDF5GenomicArray.init α h5fs chroms stranded conditions resolution order
        cache overwrite loader).map
      (fun r => CreatedArray.hdf5 r.1 r.2.1 r.2.2)
  else if storage = "ndarray" then
    (NPGenomicArray.init α npfs chroms stranded conditions resolution order
        cache overwrite loader).map
      (fun r => CreatedArray.ndarray r.1 r.2.1 r.2.2)
  else Except.error "Storage type must be hdf5 or ndarray"

lemma alookup_aupdate (l : List (String × β)) (k ch : String) (v : β) :
    alookup (aupdate l k v) ch =
      if ch = k then (alookup l k).map (fun _ => v) else alookup l ch := by
  induction l with
  | nil => simp [aupdate, alookup]
  | cons kv rest ih =>
    obtain ⟨k0, v0⟩ := kv
    show alookup ((if k0 = k then (k, v) else (k0, v0)) :: aupdate rest k v) ch = _
    by_cases hk0 : k0 = k
    · subst hk0
      rw [if_pos rfl]
      by_cases hch : ch = k0
      · subst hch
        simp [alookup]
      · have h1 : ¬ k0 = ch := fun h => hch h.symm
        simp [alookup, h1, hch, ih]
    · rw [if_neg hk0]
      by_cases hkc : k0 = ch
      · subst hkc
        simp [alookup, hk0]
      · simp [alookup, hk0, hkc, ih]

lemma alookup_map_pair {β γ : Type} (l : List (String × β)) (F : β → γ)
    (k : String) (b : β) (h : alookup l k = some b) :
    alookup (l.map (fun kv => (kv.1, F kv.2))) k = some (F b) := by
  induction l with
  | nil => cases h
  | cons kv rest ih =>
    by_cases hk : kv.1 = k
    · simp only [alookup, hk, if_pos] at h
      simp only [List.map_cons, alookup, hk, if_pos]
      cases h
      rfl
    · simp only [alookup, hk, if_neg, ite_false] at h
      simp only [List.map_cons, alookup, hk, ite_false]
      exact ih h

/-- First-axis length of a backing array as the claim states it:
`ceil(chrom_length / resolution) + 1`. -/
def specAllocDim0 (chromLength resolution : Nat) : Nat :=
  (chromLength + resolution - 1) / resolution + 1

/-- C3 (amended): both backends allocate, for every configured chromosome of
length L, a zero-initialized array of shape
`(L + 1, 2 if stranded else 1, len(conditions))` -- the first axis is the raw
chromosome length plus one, with no division by the resolution. -/
theorem allocated_array_shape (α : Type) [Zero α] (chroms : List (String × Nat))
    (stranded : Bool) (conds : List String) (ch : String) (clen : Nat)
    (h : alookup chroms ch = some clen) :
    (∃ arr, alookup (hdf5CreateDatasets α chroms stranded conds) ch = some arr ∧
      arr.dim0 = clen + 1 ∧ arr.dim1 = (if stranded then 2 else 1) ∧
      arr.dim2 = conds.length ∧ ∀ p q r, arr.data p q r = 0) ∧
    (∃ arr, alookup (npCreateData α chroms stranded conds) ch = some arr ∧
      arr.dim0 = clen + 1 ∧ arr.dim1 = (if stranded then 2 else 1) ∧
      arr.dim2 = conds.length ∧ ∀ p q r, arr.data p q r = 0) :=
  ⟨⟨_, alookup_map_pair chroms
      (fun clen' => Array3.zeros α (clen' + 1) (if stranded then 2 else 1) conds.length)
      ch clen h, rfl, rfl, rfl, fun _ _ _ => rfl⟩,
   ⟨_, alookup_map_pair chroms
      (fun clen' => Array3.zeros α (clen' + 1) (if stranded then 2 else 1) conds.length)
      ch clen h, rfl, rfl, rfl, fun _ _ _ => rfl⟩⟩

/-- C3 witness: `allocated_array_shape` instantiated for one chromosome of
length 10 with two conditions, stranded. -/
theorem allocated_array_shape_witness :
    (alookup [("chr1", 10)] "chr1" = some 10) ∧
    ((∃ arr, alookup (hdf5CreateDatasets Int [("chr1", 10)] true ["a", "b"]) "chr1"
        = some arr ∧
      arr.dim0 = 10 + 1 ∧ arr.dim1 = (if true then 2 else 1) ∧
      arr.dim2 = (["a", "b"] : List String).length ∧ ∀ p q r, arr.data p q r = 0) ∧
     (∃ arr, alookup (npCreateData Int [("chr1", 10)] true ["a", "b"]) "chr1"
        = some arr ∧
      arr.dim0 = 10 + 1 ∧ arr.dim1 = (if true then 2 else 1) ∧
      arr.dim2 = (["a", "b"] : List String).length ∧ ∀ p q r, arr.data p q r = 0)) :=
  ⟨rfl, allocated_array_shape Int [("chr1", 10)] true ["a", "b"] "chr1" 10 rfl⟩

/-- C3 counterexample: constructing either backend over a chromosome of
length 10 at resolution 2 allocates a first axis of 11 cells, not the claimed
`ceil(10 / 2) + 1 = 6`. -/
theorem allocated_array_shape_spec_cex :
    (HDF5GenomicArray.init Int none [("chr1", 10)] false (some ["sample"]) 2 1
        true false none).map
        (fun r => (alookup r.2.1.handle "chr1").map Array3.dim0)
      = Except.ok (some 11) ∧
    (NPGenomicArray.init Int none [("chr1", 10)] false (some ["sample"]) 2 1
        true false none).map
        (fun r => (alookup r.2.1.handle "chr1").map Array3.dim0)
      = Except.ok (some 11) ∧
    specAllocDim0 10 2 = 6 ∧ (11 : Nat) ≠ 6 :=
  ⟨rfl, rfl, rfl, by decide⟩

/-- C4 (amended): `__getitem__` accepts only a bare GenomicInterval.  Every
(interval, condition) pair raises IndexError regardless of the condition's
validity; a bare interval with a known chromosome returns the full sub-array
`handle[chrom][start div resolution : end div resolution]` spanning all strand
and condition axes (no strand-axis or condition selection takes place). -/
theorem getitem_requires_bare_interval {α : Type} (garr : GenomicArray α)
    (interval : GenomicInterval) (arr : Array3 α)
    (h : alookup garr.handle interval.chrom = some arr) :
    (∀ c : Int, garr.getitem (GetItemKey.pair interval c) =
      Except.error "Index must be a GenomicInterval") ∧
    (∃ slab, garr.getitem (GetItemKey.interval interval) = Except.ok slab ∧
      slab.dim0 = sliceBound arr.dim0 (Int.fdiv interval.stop garr.resolution) -
        sliceBound arr.dim0 (Int.fdiv interval.start garr.resolution) ∧
      slab.dim1 = arr.dim1 ∧ slab.dim2 = arr.dim2 ∧
      ∀ p q r, slab.data p q r =
        arr.data (sliceBound arr.dim0 (Int.fdiv interval.start garr.resolution) + p) q r) := by
  refine ⟨fun c => rfl, ?_⟩
  simp only [GenomicArray.getitem, h]
  exact ⟨_, rfl, rfl, rfl, rfl, fun _ _ _ => rfl⟩

/-- Concrete unstranded store over chr1 (11 cells, resolution 1, one
condition) used to instantiate the array theorems. -/
def chr1Store : GenomicArray Int :=
  { stranded := false, condition := ["sample"], resolution := 1, order := 1,
    handle := [("chr1", Array3.zeros Int 11 1 1)] }

/-- C4 witness: `getitem_requires_bare_interval` at the concrete store and the
interval chr1:0-2. -/
theorem getitem_requires_bare_interval_witness :
    (alookup chr1Store.handle "chr1" = some (Array3.zeros Int 11 1 1)) ∧
    ((∀ c : Int, chr1Store.getitem (GetItemKey.pair ⟨"chr1", 0, 2, "+"⟩ c) =
        Except.error "Index must be a GenomicInterval") ∧
     (∃ slab, chr1Store.getitem (GetItemKey.interval ⟨"chr1", 0, 2, "+"⟩) =
        Except.ok slab ∧
      slab.dim0 = sliceBound (Array3.zeros Int 11 1 1).dim0
          (Int.fdiv (2 : Int) chr1Store.resolution) -
        sliceBound (Array3.zeros Int 11 1 1).dim0
          (Int.fdiv (0 : Int) chr1Store.resolution) ∧
      slab.dim1 = (Array3.zeros Int 11 1 1).dim1 ∧
      slab.dim2 = (Array3.zeros Int 11 1 1).dim2 ∧
      ∀ p q r, slab.data p q r =
        (Array3.zeros Int 11 1 1).data
          (sliceBound (Array3.zeros Int 11 1 1).dim0
            (Int.fdiv (0 : Int) chr1Store.resolution) + p) q r)) :=
  ⟨rfl, getitem_requires_bare_interval chr1Store ⟨"chr1", 0, 2, "+"⟩
    (Array3.zeros Int 11 1 1) rfl⟩

/-- C4 counterexample: the condition index 0 is a valid integer in
`[0, len(conditions))`, yet `store[interval, 0]` does not return the claimed
sub-array -- it raises IndexError, because a tuple is not a GenomicInterval. -/
theorem getitem_with_condition_cex :
    chr1Store.getitem (GetItemKey.pair ⟨"chr1", 0, 2, "+"⟩ 0) =
      Except.error "Index must be a GenomicInterval" ∧
    (0 : Int) ≤ 0 ∧ (0 : Int) < chr1Store.condition.length :=
  ⟨rfl, by decide, by decide⟩

/-- C5 (amended): for a known chromosome and in-bounds strand/condition
indices, writing `v` and then reading back the same interval succeeds, the
returned slab spans exactly the written cell range
`[start div resolution, end div resolution)`, and every position of the slab
at the written strand axis and condition index holds `v`.  When the interval
lies inside one storage cell that range is empty: nothing was written and the
returned slab has no entries, so the value is not recoverable (reads also
return all strand/condition coordinates, since `__getitem__` takes no
condition). -/
theorem write_read_roundtrip {α : Type} (garr : GenomicArray α)
    (interval : GenomicInterval) (c : Int) (v : α) (arr : Array3 α) (j k : Nat)
    (h : alookup garr.handle interval.chrom = some arr)
    (hj : scalarIndex arr.dim1
        (if garr.stranded = true ∧ interval.strand = "-" then 1 else 0) = some j)
    (hk : scalarIndex arr.dim2 c = some k) :
    ∃ garr' slab,
      garr.setitem (SetItemKey.mk interval c) v = Except.ok garr' ∧
      garr'.getitem (GetItemKey.interval interval) = Except.ok slab ∧
      slab.dim0 = sliceBound arr.dim0 (Int.fdiv interval.stop garr.resolution) -
        sliceBound arr.dim0 (Int.fdiv interval.start garr.resolution) ∧
      ∀ p, p < slab.dim0 → slab.data p j k = v := by
  refine ⟨{ garr with
              handle := aupdate garr.handle interval.chrom
                          (arr.assignSlice
                            (sliceBound arr.dim0 (Int.fdiv interval.start garr.resolution))
                            (sliceBound arr.dim0 (Int.fdiv interval.stop garr.resolution))
                            j k v) },
    (arr.assignSlice
        (sliceBound arr.dim0 (Int.fdiv interval.start garr.resolution))
        (sliceBound arr.dim0 (Int.fdiv interval.stop garr.resolution)) j k v).sliceAxis0
      (sliceBound arr.dim0 (Int.fdiv interval.start garr.resolution))
      (sliceBound arr.dim0 (Int.fdiv interval.stop garr.resolution)),
    ?_, ?_, rfl, ?_⟩
  · simp only [GenomicArray.setitem, h, hj, hk]
  · have hlook : alookup
        (aupdate garr.handle interval.chrom
          (arr.assignSlice
            (sliceBound arr.dim0 (Int.fdiv interval.start garr.resolution))
            (sliceBound arr.dim0 (Int.fdiv interval.stop garr.resolution)) j k v))
        interval.chrom
        = some (arr.assignSlice
            (sliceBound arr.dim0 (Int.fdiv interval.start garr.resolution))
            (sliceBound arr.dim0 (Int.fdiv interval.stop garr.resolution)) j k v) := by
      rw [alookup_aupdate, if_pos rfl, h]
      rfl
    simp only [GenomicArray.getitem, hlook]
    rfl
  · intro p hp
    have hp' : p < sliceBound arr.dim0 (Int.fdiv interval.stop garr.resolution) -
        sliceBound arr.dim0 (Int.fdiv interval.start garr.resolution) := hp
    have hpe : sliceBound arr.dim0 (Int.fdiv interval.start garr.resolution) + p <
        sliceBound arr.dim0 (Int.fdiv interval.stop garr.resolution) := by omega
    show (if sliceBound arr.dim0 (Int.fdiv interval.start garr.resolution) ≤
            sliceBound arr.dim0 (Int.fdiv interval.start garr.resolution) + p ∧
          sliceBound arr.dim0 (Int.fdiv interval.start garr.resolution) + p <
            sliceBound arr.dim0 (Int.fdiv interval.stop garr.resolution) ∧
          j = j ∧ k = k
        then v
        else arr.data
          (sliceBound arr.dim0 (Int.fdiv interval.start garr.resolution) + p) j k) = v
    rw [if_pos ⟨Nat.le_add_right _ _, hpe, rfl, rfl⟩]

/-- Concrete unstranded store over chr1 at resolution 2 (6 cells, one
condition) used for the single-cell write scenarios. -/
def res2Store : GenomicArray Int :=
  { stranded := false, condition := ["sample"], resolution := 2, order := 1,
    handle := [("chr1", Array3.zeros Int 6 1 1)] }

/-- C5 witness: `write_read_roundtrip` at the resolution-1 store, interval
chr1:0-2, condition 0, value 7. -/
theorem write_read_roundtrip_witness :
    (alookup chr1Store.handle "chr1" = some (Array3.zeros Int 11 1 1)) ∧
    (scalarIndex (Array3.zeros Int 11 1 1).dim1
        (if chr1Store.stranded = true ∧
            (⟨"chr1", 0, 2, "+"⟩ : GenomicInterval).strand = "-" then 1 else 0)
      = some 0) ∧
    (scalarIndex (Array3.zeros Int 11 1 1).dim2 0 = some 0) ∧
    (∃ garr' slab,
      chr1Store.setitem (SetItemKey.mk ⟨"chr1", 0, 2, "+"⟩ 0) 7 = Except.ok garr' ∧
      garr'.getitem (GetItemKey.interval ⟨"chr1", 0, 2, "+"⟩) = Except.ok slab ∧
      slab.dim0 = sliceBound (Array3.zeros Int 11 1 1).dim0
          (Int.fdiv (⟨"chr1", 0, 2, "+"⟩ : GenomicInterval).stop chr1Store.resolution) -
        sliceBound (Array3.zeros Int 11 1 1).dim0
          (Int.fdiv (⟨"chr1", 0, 2, "+"⟩ : GenomicInterval).start chr1Store.resolution) ∧
      ∀ p, p < slab.dim0 → slab.data p 0 0 = 7) :=
  ⟨rfl, rfl, rfl,
    write_read_roundtrip chr1Store ⟨"chr1", 0, 2, "+"⟩ 0 7
      (Array3.zeros Int 11 1 1) 0 0 rfl rfl rfl⟩

/-- C5 counterexample: at resolution 2, the interval chr1:0-1 lies inside one
storage cell (`0 div 2 = 1 div 2 = 0`).  Writing 5 there raises no error, but
reading the same interval back returns an empty slab (0 positions): the write
collapsed to an empty cell range, not to "the same cell", and the written
value cannot be read back. -/
theorem write_read_roundtrip_single_cell_cex :
    (res2Store.setitem (SetItemKey.mk ⟨"chr1", 0, 1, "+"⟩ 0) 5).map
        (fun garr' => (garr'.getitem (GetItemKey.interval ⟨"chr1", 0, 1, "+"⟩)).map
          Array3.dim0)
      = Except.ok (Except.ok 0) ∧
    Int.fdiv 0 2 = Int.fdiv 1 2 :=
  ⟨rfl, rfl⟩

/-- C10: writing to an interval whose endpoints fall in the same storage cell
(with a known chromosome and in-bounds strand/condition indices) raises no
error and changes nothing: the handle keeps the same chromosomes, and every
cell of every chromosome array is unchanged. -/
theorem setitem_empty_cell_range_noop {α : Type} (garr : GenomicArray α)
    (interval : GenomicInterval) (c : Int) (v : α) (arr : Array3 α) (j k : Nat)
    (h : alookup garr.handle interval.chrom = some arr)
    (hj : scalarIndex arr.dim1
        (if garr.stranded = true ∧ interval.strand = "-" then 1 else 0) = some j)
    (hk : scalarIndex arr.dim2 c = some k)
    (hcell : Int.fdiv interval.start garr.resolution =
      Int.fdiv interval.stop garr.resolution) :
    ∃ garr', garr.setitem (SetItemKey.mk interval c) v = Except.ok garr' ∧
      (∀ ch, (alookup garr'.handle ch).isSome = (alookup garr.handle ch).isSome) ∧
      (∀ ch arrA arrB, alookup garr'.handle ch = some arrA →
        alookup garr.handle ch = some arrB →
        arrA.dim0 = arrB.dim0 ∧ arrA.dim1 = arrB.dim1 ∧ arrA.dim2 = arrB.dim2 ∧
        ∀ p q r, arrA.data p q r = arrB.data p q r) := by
  have hse : sliceBound arr.dim0 (Int.fdiv interval.start garr.resolution) =
      sliceBound arr.dim0 (Int.fdiv interval.stop garr.resolution) := by rw [hcell]
  refine ⟨{ garr with
              handle := aupdate garr.handle interval.chrom
                          (arr.assignSlice
                            (sliceBound arr.dim0 (Int.fdiv interval.start garr.resolution))
                            (sliceBound arr.dim0 (Int.fdiv interval.stop garr.resolution))
                            j k v) },
    ?_, ?_, ?_⟩
  · simp only [GenomicArray.setitem, h, hj, hk]
  · intro ch
    show (alookup (aupdate garr.handle interval.chrom _) ch).isSome = _
    rw [alookup_aupdate]
    by_cases hch : ch = interval.chrom
    · rw [if_pos hch, hch]
      cases alookup garr.handle interval.chrom <;> rfl
    · rw [if_neg hch]
  · intro ch arrA arrB hA hB
    have hA' : alookup (aupdate garr.handle interval.chrom
        (arr.assignSlice
          (sliceBound arr.dim0 (Int.fdiv interval.start garr.resolution))
          (sliceBound arr.dim0 (Int.fdiv interval.stop garr.resolution)) j k v)) ch
        = some arrA := hA
    rw [alookup_aupdate] at hA'
    by_cases hch : ch = interval.chrom
    · rw [if_pos hch] at hA'
      rw [hch, h] at hB
      cases hB
      rw [h] at hA'
      cases hA'
      refine ⟨rfl, rfl, rfl, fun p q r => ?_⟩
      show (if sliceBound arr.dim0 (Int.fdiv interval.start garr.resolution) ≤ p ∧
              p < sliceBound arr.dim0 (Int.fdiv interval.stop garr.resolution) ∧
              q = j ∧ r = k
            then v else arr.data p q r) = arr.data p q r
      rw [if_neg]
      rintro ⟨h1, h2, _, _⟩
      omega
    · rw [if_neg hch] at hA'
      rw [hA'] at hB
      cases hB
      exact ⟨rfl, rfl, rfl, fun p q r => rfl⟩

/-- C10 witness: `setitem_empty_cell_range_noop` at the resolution-2 store,
interval chr1:0-1, condition 0, value 5. -/
theorem setitem_empty_cell_range_noop_witness :
    (alookup res2Store.handle "chr1" = some (Array3.zeros Int 6 1 1)) ∧
    (scalarIndex (Array3.zeros Int 6 1 1).dim1
        (if res2Store.stranded = true ∧
            (⟨"chr1", 0, 1, "+"⟩ : GenomicInterval).strand = "-" then 1 else 0)
      = some 0) ∧
    (scalarIndex (Array3.zeros Int 6 1 1).dim2 0 = some 0) ∧
    (Int.fdiv (⟨"chr1", 0, 1, "+"⟩ : GenomicInterval).start res2Store.resolution =
      Int.fdiv (⟨"chr1", 0, 1, "+"⟩ : GenomicInterval).stop res2Store.resolution) ∧
    (∃ garr', res2Store.setitem (SetItemKey.mk ⟨"chr1", 0, 1, "+"⟩ 0) 5
        = Except.ok garr' ∧
      (∀ ch, (alookup garr'.handle ch).isSome = (alookup res2Store.handle ch).isSome) ∧
      (∀ ch arrA arrB, alookup garr'.handle ch = some arrA →
        alookup res2Store.handle ch = some arrB →
        arrA.dim0 = arrB.dim0 ∧ arrA.dim1 = arrB.dim1 ∧ arrA.dim2 = arrB.dim2 ∧
        ∀ p q r, arrA.data p q r = arrB.data p q r)) :=
  ⟨rfl, rfl, rfl, rfl,
    setitem_empty_cell_range_noop res2Store ⟨"chr1", 0, 1, "+"⟩ 0 5
      (Array3.zeros Int 6 1 1) 0 0 rfl rfl rfl rfl⟩

/-- C6: reconstructing the HDF5 store when the cache file already exists and
`overwrite` is false never invokes the loader, and the resulting store's
`conditions`, `order` and `resolution` are the persisted metadata of the
originally constructed store (the constructor arguments of the second run do
not matter). -/
theorem hdf5_reload_preserves_metadata (α : Type) [Zero α]
    (chroms1 chroms2 : List (String × Nat)) (str1 str2 cache1 cache2 ow1 : Bool)
    (conds1 conds2 : Option (List String)) (res1 res2 ord1 ord2 : Int)
    (ld1 ld2 : Option (GenomicArray α → GenomicArray α))
    (f1 f2 : H5File α) (st1 st2 : GenomicArray α) (inv1 inv2 : Bool)
    (h1 : HDF5GenomicArray.init α none chroms1 str1 conds1 res1 ord1 cache1 ow1 ld1
        = Except.ok (f1, st1, inv1))
    (h2 : HDF5GenomicArray.init α (some f1) chroms2 str2 conds2 res2 ord2 cache2 false ld2
        = Except.ok (f2, st2, inv2)) :
    inv2 = false ∧ st2.condition = st1.condition ∧ st2.order = st1.order ∧
      st2.resolution = st1.resolution := by
  cases hg1 : GenomicArray.initBase conds1 res1 ord1 with
  | error e =>
    simp only [HDF5GenomicArray.init, hg1] at h1
    cases h1
  | ok cs1 =>
    cases hg2 : GenomicArray.initBase conds2 res2 ord2 with
    | error e =>
      simp only [HDF5GenomicArray.init, hg2] at h2
      cases h2
    | ok cs2 =>
      cases cache1 with
      | false => simp [HDF5GenomicArray.init, hg1] at h1
      | true =>
        cases cache2 with
        | false => simp [HDF5GenomicArray.init, hg2] at h2
        | true =>
          simp only [HDF5GenomicArray.init, hg2,
            if_neg (show ¬ (true = false) by decide),
            Except.ok.injEq, Prod.mk.injEq] at h2
          obtain ⟨hf2, hst2, hinv2⟩ := h2
          cases ow1 with
          | false =>
            simp only [HDF5GenomicArray.init, hg1,
              if_neg (show ¬ (true = false) by decide),
              Except.ok.injEq, Prod.mk.injEq] at h1
            obtain ⟨hf1, hst1, hinv1⟩ := h1
            subst hst2
            subst hinv2
            subst hst1
            subst hf1
            exact ⟨rfl, rfl, rfl, rfl⟩
          | true =>
            simp only [HDF5GenomicArray.init, hg1,
              if_neg (show ¬ (true = false) by decide),
              Except.ok.injEq, Prod.mk.injEq] at h1
            obtain ⟨hf1, hst1, hinv1⟩ := h1
            subst hst2
            subst hinv2
            subst hst1
            subst hf1
            exact ⟨rfl, rfl, rfl, rfl⟩

/-- Persisted file content produced by the first construction in the C6
witness scenario. -/
def wH5File : H5File Int :=
  { datasets := [], conditions := ["a"], order := 1, resolution := 1 }

/-- Store produced by the first construction in the C6 witness scenario. -/
def wStore1 : GenomicArray Int :=
  { stranded := false, condition := ["a"], resolution := 1, order := 1, handle := [] }

/-- Store produced by the reloading construction in the C6 witness scenario:
its metadata comes from the persisted file, not from its own arguments. -/
def wStore2 : GenomicArray Int :=
  { stranded := true, condition := ["a"], resolution := 1, order := 1, handle := [] }

/-- C6 witness: a first build (no cache present) followed by a reload with
different constructor arguments and a loader supplied; the loader is not
invoked and the persisted metadata wins. -/
theorem hdf5_reload_preserves_metadata_witness :
    (HDF5GenomicArray.init Int none [] false (some ["a"]) 1 1 true false none
      = Except.ok (wH5File, wStore1, false)) ∧
    (HDF5GenomicArray.init Int (some wH5File) [("chr2", 5)] true none 3 2 true false
        (some (fun st => st))
      = Except.ok (wH5File, wStore2, false)) ∧
    (false = false ∧ wStore2.condition = wStore1.condition ∧
      wStore2.order = wStore1.order ∧ wStore2.resolution = wStore1.resolution) :=
  ⟨rfl, rfl,
    hdf5_reload_preserves_metadata Int [] [("chr2", 5)] false true true true false
      (some ["a"]) none 1 3 1 2 none (some (fun st => st)) wH5File wH5File
      wStore1 wStore2 false false rfl rfl⟩

/-- C9: the factory rejects every storage tag other than 'hdf5' and 'ndarray'
with a configuration error (no store is constructed), and for the two
recognized tags it forwards all configuration and the loader unchanged to the
corresponding backend constructor. -/
theorem create_genomic_array_storage_kinds (α : Type) [Zero α]
    (h5fs : Option (H5File α)) (npfs : Option (NpzFile α))
    (chroms : List (String × Nat)) (stranded : Bool)
    (conditions : Option (List String)) (storage : String)
    (resolution order : Int) (cache overwrite : Bool)
    (loader : Option (GenomicArray α → GenomicArray α))
    (hs1 : storage ≠ "hdf5") (hs2 : storage ≠ "ndarray") :
    create_genomic_array α h5fs npfs chroms stranded conditions storage
        resolution order cache overwrite loader
      = Except.error "Storage type must be hdf5 or ndarray" ∧
    create_genomic_array α h5fs npfs chroms stranded conditions "hdf5"
        resolution order cache overwrite loader
      = (HDF5GenomicArray.init α h5fs chroms stranded conditions resolution order
          cache overwrite loader).map
        (fun r => CreatedArray.hdf5 r.1 r.2.1 r.2.2) ∧
    create_genomic_array α h5fs npfs chroms stranded conditions "ndarray"
        resolution order cache overwrite loader
      = (NPGenomicArray.init α npfs chroms stranded conditions resolution order
          cache overwrite loader).map
        (fun r => CreatedArray.ndarray r.1 r.2.1 r.2.2) := by
  refine ⟨?_, rfl, ?_⟩
  · simp only [create_genomic_array, if_neg hs1, if_neg hs2]
  · simp [create_genomic_array]

/-- C9 witness: `create_genomic_array_storage_kinds` at the unrecognized tag
'memmap'. -/
theorem create_genomic_array_storage_kinds_witness :
    (("memmap" : String) ≠ "hdf5") ∧ (("memmap" : String) ≠ "ndarray") ∧
    (create_genomic_array Int none none [("chr1", 4)] false (some ["s"]) "memmap"
        1 1 true false none
      = Except.error "Storage type must be hdf5 or ndarray" ∧
     create_genomic_array Int none none [("chr1", 4)] false (some ["s"]) "hdf5"
        1 1 true false none
      = (HDF5GenomicArray.init Int none [("chr1", 4)] false (some ["s"]) 1 1
          true false none).map
        (fun r => CreatedArray.hdf5 r.1 r.2.1 r.2.2) ∧
     create_genomic_array Int none none [("chr1", 4)] false (some ["s"]) "ndarray"
        1 1 true false none
      = (NPGenomicArray.init Int none [("chr1", 4)] false (some ["s"]) 1 1
          true false none).map
        (fun r => CreatedArray.ndarray r.1 r.2.1 r.2.2)) :=
  ⟨by decide, by decide,
    create_genomic_array_storage_kinds Int none none [("chr1", 4)] false (some ["s"])
      "memmap" 1 1 true false none (by decide) (by decide)⟩
